import Mathlib

/-!
Verification development for the certificate provisioning subsystem of the
repository (`CertificateProvider` in `src/desktop/app/src/server/utils/` and
its older near-duplicate in `src/desktop/app/src/utils/`).

The TypeScript code is shallowly embedded: strings are `List Char` / `String`,
JavaScript regular expressions used by the code are implemented as executable
matchers with JavaScript semantics (leftmost match, greedy quantifiers,
backtracking resolved by hand where the pattern makes it deterministic), and
the asynchronous, fallible collaborator calls (openssl invocations, adb/idb
bridge calls, filesystem writes, the network upload) are modelled as inputs of
type `Except`/`Bool` to the embedded functions, mirroring the collaborator
boundary the code itself uses.  Effects relevant to the claims (staging files,
pushing to devices, uploading) are tracked in an explicit state record.
-/

namespace Flipper

/-! ## JavaScript character classes -/

/-- The JavaScript `\s` class (also what `String.prototype.trim` strips):
WhiteSpace plus LineTerminator code points. -/
def jsWhitespaceChar (c : Char) : Bool :=
  c = ' ' || c = '\t' || c = '\n' || c = '\r' ||
  c.val = 11 || c.val = 12 ||
  c.val = 0xa0 || c.val = 0x1680 ||
  (0x2000 ≤ c.val && c.val ≤ 0x200a) ||
  c.val = 0x2028 || c.val = 0x2029 ||
  c.val = 0x202f || c.val = 0x205f || c.val = 0x3000 || c.val = 0xfeff

/-- JavaScript LineTerminator code points (what `.` in a regex does NOT match). -/
def lineTerminatorChar (c : Char) : Bool :=
  c = '\n' || c = '\r' || c.val = 0x2028 || c.val = 0x2029

/-- The JavaScript `\w` class: `[A-Za-z0-9_]`. -/
def isWordChar (c : Char) : Bool :=
  ('a' ≤ c && c ≤ 'z') || ('A' ≤ c && c ≤ 'Z') || ('0' ≤ c && c ≤ '9') || c = '_'

/-! ## `santitizeString` (sic, the source's spelling)

Source: `csrString.replace(/\r/g, '').trim()`. -/

/-- Drop trailing characters satisfying `p` (the second half of `trim`). -/
def dropTrailing (p : Char → Bool) (l : List Char) : List Char :=
  (l.reverse.dropWhile p).reverse

/-- JavaScript `String.prototype.trim`: strip leading and trailing whitespace. -/
def trimList (l : List Char) : List Char :=
  dropTrailing jsWhitespaceChar (l.dropWhile jsWhitespaceChar)

/-- `santitizeString`, on the character-list model:
`csrString.replace(/\r/g, '').trim()`. -/
def santitizeList (l : List Char) : List Char :=
  trimList (l.filter (fun c => c != '\r'))

/-- `santitizeString` on `String` (used by the orchestration model). -/
def santitizeString (s : String) : String :=
  (santitizeList s.toList).asString

/-! ## App-name allow-list regexes

Server variant: `/^[\w.-]+$/`.  Older `utils` variant: `/^[\w._-]+$/`. -/

/-- Character class `[\w.-]` of the server variant's `allowedAppNameRegex`. -/
def allowedAppNameChar (c : Char) : Bool :=
  isWordChar c || c = '.' || c = '-'

/-- Character class `[\w._-]` of the utils variant's `allowedAppNameRegex`. -/
def allowedAppNameCharUtils (c : Char) : Bool :=
  isWordChar c || c = '.' || c = '_' || c = '-'

/-- `appName.match(/^[\w.-]+$/)` (server variant): nonempty and all characters
in the class. -/
def matchesAllowedAppName (l : List Char) : Bool :=
  !l.isEmpty && l.all allowedAppNameChar

/-- `appName.match(/^[\w._-]+$/)` (utils variant). -/
def matchesAllowedAppNameUtils (l : List Char) : Bool :=
  !l.isEmpty && l.all allowedAppNameCharUtils

/-! ## The CN-extraction regex `x509SubjectCNRegex = /[=,]\s*CN=([^,]*)(,.*)?$/`

JavaScript semantics: the engine tries start positions left to right.  At a
given start: one character in `[=,]`; then `\s*` (greedy; deterministic here
because `\s` never matches `C`); then the literal `CN=`; then the capture
`([^,]*)` (greedy: everything up to the first comma, or to the end); then
`(,.*)?$`: either the capture reaches the end of the string, or a comma
follows and `.*` (which does not match line terminators) must span from after
that comma to the end of the string. -/

/-- Matching of `([^,]*)(,.*)?$` against the text following `CN=`; returns the
first capture group on success. -/
def cnCapture (r : List Char) : Option (List Char) :=
  let a := r.takeWhile (fun c => c != ',')
  let b := r.drop a.length
  match b with
  | [] => some a
  | _ :: rest => if rest.all (fun c => !lineTerminatorChar c) then some a else none

/-- Attempt of `x509SubjectCNRegex` at one start position. -/
def cnMatchAt (l : List Char) : Option (List Char) :=
  match l with
  | [] => none
  | c :: rest =>
    if c = '=' || c = ',' then
      match rest.dropWhile jsWhitespaceChar with
      | 'C' :: 'N' :: '=' :: r2 => cnCapture r2
      | _ => none
    else none

/-- `subject.match(x509SubjectCNRegex)`: leftmost successful start position. -/
def cnScan : List Char → Option (List Char)
  | [] => none
  | c :: rest =>
    match cnMatchAt (c :: rest) with
    | some cap => some cap
    | none => cnScan rest

/-! ## `extractAppNameFromCSR`

The openssl subject dump for the CSR is an external collaborator output; the
embedded function takes that dump as its input, then performs the code's own
work: `subject.trim().match(x509SubjectCNRegex)`, then the allow-list check. -/

inductive AppNameError
  | malformedSubject
  | disallowedAppName
deriving DecidableEq, Repr

/-- `extractAppNameFromCSR` (server variant), applied to the openssl subject
dump produced for the CSR. -/
def extractAppNameFromCSR (subject : List Char) : Except AppNameError (List Char) :=
  match cnScan (trimList subject) with
  | none => Except.error AppNameError.malformedSubject
  | some appName =>
    if matchesAllowedAppName appName then Except.ok appName
    else Except.error AppNameError.disallowedAppName

/-! ## Certificate validity (`checkCertIsValid`, `verifyServerCertWasIssuedByCA`,
`ensureServerCertExists`)

`minCertExpiryWindowSeconds = 24 * 60 * 60` in both variants.  Timestamps are
modelled as integers in milliseconds (JavaScript `Date` epoch values).  The
openssl `checkend` quick check, the parse of the `enddate` output
(`Date.parse` applied to the text after `=`; `NaN` becomes `none`), and the
existence of the on-disk files are collaborator outcomes and enter as inputs.
-/

def minCertExpiryWindowSeconds : Int := 24 * 60 * 60

inductive CertCheckError
  | notFound         -- `filename does not exist`
  | parseFailure     -- `Cannot parse certificate expiry date. Assuming it has expired.`
  | expiring         -- `Certificate has expired or will expire soon.`
  | quickCheckFailed -- the rethrown openssl `checkend` error (utils variant)
deriving DecidableEq, Repr

/-- `checkCertIsValid(filename)` (server variant,
`src/desktop/app/src/server/utils/CertificateProvider.tsx`): not-found guard,
then the openssl `checkend` quick check inside `try`; on its (conservative)
failure the `catch` falls back to the parsed explicit end date compared
against `Date.now() + minCertExpiryWindowSeconds * 1000`. -/
def checkCertIsValid (fileExists checkendOk : Bool) (parsedEndDate : Option Int)
    (now : Int) : Except CertCheckError Unit :=
  if !fileExists then Except.error CertCheckError.notFound
  else if checkendOk then Except.ok ()
  else
    match parsedEndDate with
    | none => Except.error CertCheckError.parseFailure
    | some expiryDate =>
      if expiryDate ≤ now + minCertExpiryWindowSeconds * 1000 then
        Except.error CertCheckError.expiring
      else Except.ok ()

/-- `checkCertIsValid(filename)` (utils variant,
`src/desktop/app/src/utils/CertificateProvider.tsx`): not-found guard, then
the `checkend` quick check whose `.catch` logs and RETHROWS — a quick-check
failure is final and the remaining `.then` chain is skipped, so the end-date
parse runs only after a SUCCESSFUL quick check, as an additional test. -/
def checkCertIsValidUtils (fileExists checkendOk : Bool) (parsedEndDate : Option Int)
    (now : Int) : Except CertCheckError Unit :=
  if !fileExists then Except.error CertCheckError.notFound
  else if !checkendOk then Except.error CertCheckError.quickCheckFailed
  else
    match parsedEndDate with
    | none => Except.error CertCheckError.parseFailure
    | some expiryDate =>
      if expiryDate ≤ now + minCertExpiryWindowSeconds * 1000 then
        Except.error CertCheckError.expiring
      else Except.ok ()

/-- The regex `/[^:]+: OK/` applied (unanchored) to the output of
`openssl verify`: a match exists exactly when some non-colon character is
immediately followed by the literal `: OK`. -/
def verifyOutputHasOK : List Char → Bool
  | [] => false
  | c :: rest =>
    (decide (c ≠ ':') && [':', ' ', 'O', 'K'].isPrefixOf rest) || verifyOutputHasOK rest

/-- `ensureServerCertExists()`: if the server key, server cert or CA cert file
is missing, regenerate; otherwise run `checkCertIsValid(serverCert)` and then
`verifyServerCertWasIssuedByCA()`, regenerating if either throws.  Returns
`true` exactly when `generateServerCertificate()` is invoked. -/
def ensureServerCertExists (serverKeyExists serverCertExists caCertExists : Bool)
    (checkendOk : Bool) (parsedEndDate : Option Int) (now : Int)
    (verifyOutput : List Char) : Bool :=
  if !(serverKeyExists && serverCertExists && caCertExists) then true
  else
    match checkCertIsValid serverCertExists checkendOk parsedEndDate now with
    | Except.error _ => true
    | Except.ok _ => !verifyOutputHasOK verifyOutput

/-! ## Path regexes of the device layer -/

/-- One-position attempt of `/\/Devices\/([^/]+)\//` (simulator detection in
`getTargetiOSDeviceId`): the literal `/Devices/`, then a nonempty run of
non-`/` characters that is terminated by a further `/`. -/
def simMatchAt (l : List Char) : Option (List Char) :=
  if ("/Devices/".toList).isPrefixOf l then
    let r := l.drop 9
    let seg := r.takeWhile (fun c => c != '/')
    if seg.length = 0 then none
    else if seg.length < r.length then some seg
    else none
  else none

/-- `/\/Devices\/([^/]+)\//.exec(path)`: leftmost match, first capture group. -/
def simulatorDeviceId : List Char → Option (List Char)
  | [] => none
  | c :: rest =>
    match simMatchAt (c :: rest) with
    | some seg => some seg
    | none => simulatorDeviceId rest

/-- One-position attempt of `/Application\/[^/]+\/(.*)/
(`getRelativePathInAppContainer`): literal `Application/`, a nonempty
`/`-free segment, a `/`, then the capture `(.*)` which is greedy but stops at
a line terminator. -/
def containerMatchAt (l : List Char) : Option (List Char) :=
  if ("Application/".toList).isPrefixOf l then
    let r := l.drop 12
    let seg := r.takeWhile (fun c => c != '/')
    if seg.length = 0 then none
    else if seg.length < r.length then
      some ((r.drop (seg.length + 1)).takeWhile (fun c => !lineTerminatorChar c))
    else none
  else none

/-- `/Application\/[^/]+\/(.*)/.exec(path)`: leftmost match, capture group. -/
def containerRelativePath : List Char → Option (List Char)
  | [] => none
  | c :: rest =>
    match containerMatchAt (c :: rest) with
    | some cap => some cap
    | none => containerRelativePath rest

/-! ## Device identity resolution

Per-device collaborator outcomes enter as inputs:
for Android each element of the pool is `(deviceId, outcome)` where a
successful outcome carries the result of `androidDeviceHasMatchingCSR`
(`isMatch` together with the sanitized CSR found on the device) and an error
outcome carries the pull error that the code catches per device; for iOS a
successful outcome carries `iOSDeviceHasMatchingCSR`'s boolean and an error
outcome carries the error that the code does NOT catch per device (so it
propagates through `Promise.all`, modelled by `mapM`). -/

inductive DeviceResolutionError
  | noAndroidDevicesFound   -- `No Android devices found`
  | noIOSDevicesFound       -- `No iOS devices found`
  | pullError (msg : String) -- a rethrown per-device error
  | noMatchingDevice        -- `No matching device found for app: ...`
deriving DecidableEq, Repr

/-- The per-device `try`/`catch` wrapper of `getTargetAndroidDeviceId`: a
successful check keeps `{id, isMatch, foundCsr, error: null}`, a caught error
becomes `{id, isMatch: false, foundCsr: null, error: e}`. -/
def androidOutcome (d : String × Except String (Bool × String)) :
    String × Bool × Option String :=
  match d.2 with
  | Except.ok r => (d.1, r.1, none)
  | Except.error e => (d.1, false, some e)

/-- `getTargetAndroidDeviceId`: every per-device check is individually caught
(`error` outcomes become non-matches carrying the error), then the zero / one /
many decision is taken over the collected outcomes. -/
def getTargetAndroidDeviceId
    (devices : List (String × Except String (Bool × String))) :
    Except DeviceResolutionError String :=
  if devices.length = 0 then Except.error DeviceResolutionError.noAndroidDevicesFound
  else
    let outcomes := devices.map androidOutcome
    let matchingIds := (outcomes.filter (fun o => o.2.1)).map (fun o => o.1)
    match matchingIds with
    | [] =>
      match outcomes.find? (fun o => o.2.2.isSome) with
      | some o => Except.error (DeviceResolutionError.pullError (o.2.2.getD ""))
      | none => Except.error DeviceResolutionError.noMatchingDevice
    | id :: _ => Except.ok id

/-- `Promise.all` over fallible per-device checks, deterministically resolved
in list order: the first rejection rejects the aggregate. -/
def promiseAllExcept {α β : Type} (f : α → Except String β) : List α → Except String (List β)
  | [] => Except.ok []
  | a :: t =>
    match f a with
    | Except.error e => Except.error e
    | Except.ok b =>
      match promiseAllExcept f t with
      | Except.error e => Except.error e
      | Except.ok bs => Except.ok (b :: bs)

/-- The per-target check of `getTargetiOSDeviceId` (NO per-device catch: an
error propagates). -/
def iosOutcome (t : String × Except String Bool) : Except String (String × Bool) :=
  match t.2 with
  | Except.ok b => Except.ok (t.1, b)
  | Except.error e => Except.error e

/-- `getTargetiOSDeviceId`: simulator paths short-circuit; otherwise the
per-target checks are joined by `Promise.all` WITHOUT a per-device catch, so a
single failing check rejects the whole resolution. -/
def getTargetiOSDeviceId (deviceCsrFilePath : String)
    (targets : List (String × Except String Bool)) :
    Except DeviceResolutionError String :=
  match simulatorDeviceId deviceCsrFilePath.toList with
  | some id => Except.ok id.asString
  | none =>
    if targets.length = 0 then Except.error DeviceResolutionError.noIOSDevicesFound
    else
      match promiseAllExcept iosOutcome targets with
      | Except.error e => Except.error (DeviceResolutionError.pullError e)
      | Except.ok outcomes =>
        let matchingIds := (outcomes.filter (fun o => o.2)).map (fun o => o.1)
        match matchingIds with
        | [] => Except.error DeviceResolutionError.noMatchingDevice
        | id :: _ => Except.ok id

/-- Predicate: this Android pool entry is a successfully pulled, matching CSR. -/
def androidMatchOutcome (d : String × Except String (Bool × String)) : Bool :=
  match d.2 with
  | Except.ok (true, _) => true
  | _ => false

/-- Predicate: this Android pool entry's pull errored (and was caught). -/
def androidErredOutcome (d : String × Except String (Bool × String)) : Bool :=
  match d.2 with
  | Except.error _ => true
  | _ => false

/-- Predicate: this iOS pool entry's check errored. -/
def iosErredOutcome (t : String × Except String Bool) : Bool :=
  match t.2 with
  | Except.error _ => true
  | _ => false

/-- The error carried by an erred Android pool entry. -/
def androidErrMsg (d : String × Except String (Bool × String)) : String :=
  match d.2 with
  | Except.error e => e
  | _ => ""

/-! ## The exchange orchestration (`processCertificateSigningRequest`, server
variant)

`CertificateExchangeMedium = 'FS_ACCESS' | 'WWW' | 'NONE'`.  The observable
effects that the claims talk about are tracked in `ExchangeState`: the list of
files staged into the per-exchange `certFolder` (the WWW staging directory)
and an ordered event trace. -/

inductive Medium
  | fsAccess  -- 'FS_ACCESS'
  | www       -- 'WWW'
  | noMedium  -- 'NONE'
deriving DecidableEq, Repr

def deviceCAcertFile : String := "sonarCA.crt"
def deviceClientCertFile : String := "device.crt"

/-- `timeout(5 * 60 * 1000, ...)` wrapping the certificate upload. -/
def uploadTimeoutMilliseconds : Nat := 5 * 60 * 1000

inductive ExEvent
  | opensslCheck                              -- ensureOpenSSLIsAvailable()
  | awaitCertSetup                            -- await this.certificateSetup
  | readCACert                                -- getCACertificate()
  | stageFile (filename : String)             -- write into certFolder (WWW)
  | extractAppName                            -- extractAppNameFromCSR
  | androidEnumerate                          -- adb listDevices()
  | androidPush (deviceId filename : String)  -- androidUtil.push
  | iosEnumerate                              -- iosUtil.targets()
  | directWrite (filename : String)           -- fs.writeFile(destination + filename)
  | iosPush (filename : String)               -- iosUtil.push via pushFileToiOSDevice
  | resolveTargetDevice                       -- getTargetDeviceId
  | freshUuidGenerated                        -- uuid()
  | zipCerts                                  -- archiver zip of certFolder
  | uploadArchive (timeoutMs : Nat)           -- uploadFiles under timeout()
deriving DecidableEq, Repr

structure ExchangeState where
  events : List ExEvent
  staged : List (String × String)
deriving DecidableEq, Repr

inductive ExError
  | emptyRequest (osk : String)           -- `Received empty CSR from ... device`
  | certSetupFailed (msg : String)
  | caCertReadFailed (msg : String)
  | stageWriteFailed (filename : String)  -- `Failed to write ... to temporary folder`
  | opensslReqFailed (msg : String)
  | appName (e : AppNameError)
  | signingFailed (msg : String)
  | device (e : DeviceResolutionError)
  | pushFailed (msg : String)
  | unexpectedContainerPath (p : String)
  | unsupportedOS (osk : String)          -- `Unsupported device OS for Certificate Exchange`
  | zipFailed (msg : String)
  | uploadFailed (msg : String)
deriving DecidableEq, Repr

/-- Decidable equality for `Except` (not provided by core). -/
instance instDecidableEqExcept {ε α : Type} [DecidableEq ε] [DecidableEq α] :
    DecidableEq (Except ε α) := fun a b =>
  match a, b with
  | Except.ok x, Except.ok y =>
    if h : x = y then isTrue (by rw [h])
    else isFalse (by intro hc; cases hc; exact h rfl)
  | Except.ok _, Except.error _ => isFalse (by intro hc; cases hc)
  | Except.error _, Except.ok _ => isFalse (by intro hc; cases hc)
  | Except.error e, Except.error f =>
    if h : e = f then isTrue (by rw [h])
    else isFalse (by intro hc; cases hc; exact h rfl)

/-- Collaborator outcomes for one exchange.  Each field is the result the
corresponding external call would deliver during this exchange (openssl is
shelled out to, adb/idb are bridges, the upload is a network call). -/
structure Env where
  certSetup : Except String Unit                -- this.certificateSetup
  caCertContents : Except String String         -- fs.readFile(caCert)
  subjectDump : Except String String            -- openssl req -subject output for the CSR
  clientCert : Except String String             -- openssl x509 -req signing output
  androidDevices : List (String × Except String (Bool × String))
  iosTargets : List (String × Except String Bool)
  stageWriteOk : Bool                           -- fs.writeFile into certFolder
  directWriteOk : Bool                          -- fs.writeFile(destination + filename)
  androidPushResult : Except String Unit        -- androidUtil.push
  iosPushResult : Except String Unit            -- iosUtil.push
  freshUuid : String                            -- uuid()
  zipResult : Except String Unit                -- archiver finalize
  uploadResult : Except String Unit             -- internGraphPOSTAPIRequest under timeout
deriving DecidableEq, Repr

/-- `deployOrStageFileForMobileApp`: WWW stages into `certFolder`; otherwise
the app name is extracted from the CSR and the file is pushed by OS: Android
resolves the target device then pushes over adb; iOS/windows/MacOS try a
direct filesystem write and fall back to the idb push path; any other OS
throws `Unsupported device OS for Certificate Exchange`. -/
def deployOrStageFileForMobileApp (env : Env) (destination filename contents osk : String)
    (medium : Medium) (st : ExchangeState) : Except ExError Unit × ExchangeState :=
  if medium = Medium.www then
    if env.stageWriteOk then
      (Except.ok (), { st with staged := st.staged ++ [(filename, contents)],
                               events := st.events ++ [ExEvent.stageFile filename] })
    else (Except.error (ExError.stageWriteFailed filename), st)
  else
    match env.subjectDump with
    | Except.error e => (Except.error (ExError.opensslReqFailed e), st)
    | Except.ok subject =>
      match extractAppNameFromCSR subject.toList with
      | Except.error e =>
        (Except.error (ExError.appName e),
         { st with events := st.events ++ [ExEvent.extractAppName] })
      | Except.ok _appName =>
        let st0 := { st with events := st.events ++ [ExEvent.extractAppName] }
        if osk = "Android" then
          let st1 := { st0 with events := st0.events ++ [ExEvent.androidEnumerate] }
          match getTargetAndroidDeviceId env.androidDevices with
          | Except.error e => (Except.error (ExError.device e), st1)
          | Except.ok deviceId =>
            let st2 := { st1 with events := st1.events ++ [ExEvent.androidPush deviceId filename] }
            match env.androidPushResult with
            | Except.error e => (Except.error (ExError.pushFailed e), st2)
            | Except.ok _ => (Except.ok (), st2)
        else if osk = "iOS" || osk = "windows" || osk = "MacOS" then
          if env.directWriteOk then
            (Except.ok (), { st0 with events := st0.events ++ [ExEvent.directWrite filename] })
          else
            match containerRelativePath destination.toList with
            | none => (Except.error (ExError.unexpectedContainerPath destination), st0)
            | some _rel =>
              let st1 := { st0 with events := st0.events ++
                  (match simulatorDeviceId destination.toList with
                   | some _ => []
                   | none => [ExEvent.iosEnumerate]) }
              match getTargetiOSDeviceId destination env.iosTargets with
              | Except.error e => (Except.error (ExError.device e), st1)
              | Except.ok _udid =>
                let st2 := { st1 with events := st1.events ++ [ExEvent.iosPush filename] }
                match env.iosPushResult with
                | Except.error e => (Except.error (ExError.pushFailed e), st2)
                | Except.ok _ => (Except.ok (), st2)
        else (Except.error (ExError.unsupportedOS osk), st0)

/-- `getTargetDeviceId`: dispatch on the OS string; `MacOS` resolves to the
empty string, any unrecognized OS to `'unknown'`. -/
def getTargetDeviceId (env : Env) (osk appDirectory : String) :
    Except DeviceResolutionError String :=
  if osk = "Android" then getTargetAndroidDeviceId env.androidDevices
  else if osk = "iOS" then getTargetiOSDeviceId appDirectory env.iosTargets
  else if osk = "MacOS" then Except.ok ""
  else Except.ok "unknown"

/-- Enumeration events performed by `getTargetDeviceId` for the trace. -/
def enumEventsFor (env : Env) (osk appDirectory : String) : List ExEvent :=
  if osk = "Android" then [ExEvent.androidEnumerate]
  else if osk = "iOS" then
    match simulatorDeviceId appDirectory.toList with
    | some _ => []
    | none => [ExEvent.iosEnumerate]
  else (fun _ => []) env

/-- `processCertificateSigningRequest(unsanitizedCsr, os, appDirectory,
medium)`, server variant: sanitize (reject empty), openssl availability
notification, await certificate setup, read the CA cert, deliver it, sign the
client cert, deliver it, extract the app name, resolve the device id
(`FS_ACCESS` resolves against connected devices, any other medium takes a
fresh `uuid()`), and for `WWW` zip the staged folder and upload it under the
5-minute timeout. -/
def processCertificateSigningRequest (env : Env)
    (unsanitizedCsr osk appDirectory : String) (medium : Medium) :
    Except ExError String × ExchangeState :=
  let csr := santitizeString unsanitizedCsr
  if csr = "" then
    (Except.error (ExError.emptyRequest osk), { events := [], staged := [] })
  else
    -- ensureOpenSSLIsAvailable(): emits a notification, never blocks
    let st0 : ExchangeState := { events := [ExEvent.opensslCheck], staged := [] }
    let st1 := { st0 with events := st0.events ++ [ExEvent.awaitCertSetup] }
    match env.certSetup with
    | Except.error e => (Except.error (ExError.certSetupFailed e), st1)
    | Except.ok _ =>
      let st2 := { st1 with events := st1.events ++ [ExEvent.readCACert] }
      match env.caCertContents with
      | Except.error e => (Except.error (ExError.caCertReadFailed e), st2)
      | Except.ok caCertPem =>
        match deployOrStageFileForMobileApp env appDirectory deviceCAcertFile caCertPem osk medium st2 with
        | (Except.error e, st) => (Except.error e, st)
        | (Except.ok _, st3) =>
          match env.clientCert with
          | Except.error e => (Except.error (ExError.signingFailed e), st3)
          | Except.ok clientCertPem =>
            match deployOrStageFileForMobileApp env appDirectory deviceClientCertFile clientCertPem osk medium st3 with
            | (Except.error e, st) => (Except.error e, st)
            | (Except.ok _, st4) =>
              match env.subjectDump with
              | Except.error e => (Except.error (ExError.opensslReqFailed e), st4)
              | Except.ok subject =>
                let st5 := { st4 with events := st4.events ++ [ExEvent.extractAppName] }
                match extractAppNameFromCSR subject.toList with
                | Except.error e => (Except.error (ExError.appName e), st5)
                | Except.ok _appName =>
                  let resolved : Except ExError String × ExchangeState :=
                    if medium = Medium.fsAccess then
                      let st6 := { st5 with events := st5.events ++
                        [ExEvent.resolveTargetDevice] ++ enumEventsFor env osk appDirectory }
                      match getTargetDeviceId env osk appDirectory with
                      | Except.error e => (Except.error (ExError.device e), st6)
                      | Except.ok id => (Except.ok id, st6)
                    else
                      (Except.ok env.freshUuid,
                       { st5 with events := st5.events ++ [ExEvent.freshUuidGenerated] })
                  match resolved with
                  | (Except.error e, st) => (Except.error e, st)
                  | (Except.ok deviceId, st6) =>
                    if medium = Medium.www then
                      let st7 := { st6 with events := st6.events ++ [ExEvent.zipCerts] }
                      match env.zipResult with
                      | Except.error e => (Except.error (ExError.zipFailed e), st7)
                      | Except.ok _ =>
                        let st8 := { st7 with events := st7.events ++
                          [ExEvent.uploadArchive uploadTimeoutMilliseconds] }
                        match env.uploadResult with
                        | Except.error e => (Except.error (ExError.uploadFailed e), st8)
                        | Except.ok _ => (Except.ok deviceId, st8)
                    else (Except.ok deviceId, st6)

/-- A fully successful collaborator environment used for concrete runs. -/
def sampleEnv : Env :=
  { certSetup := Except.ok ()
    caCertContents := Except.ok "CA-PEM"
    subjectDump := Except.ok "subject=CN=com.example.app"
    clientCert := Except.ok "CLIENT-PEM"
    androidDevices := [("emu-5554", Except.ok (true, "CSR"))]
    iosTargets := []
    stageWriteOk := true
    directWriteOk := true
    androidPushResult := Except.ok ()
    iosPushResult := Except.ok ()
    freshUuid := "3b241101-e2bb-4255-8caf-4136c566a962"
    zipResult := Except.ok ()
    uploadResult := Except.ok () }

/-! # Theorems -/

/-- C10: The two allow-list regular expressions `/^[\w._-]+$/` (utils variant)
and `/^[\w.-]+$/` (server variant) accept exactly the same strings, because
`\w` already contains the underscore; so both variants of
`extractAppNameFromCSR` accept and reject identical app names. -/
theorem allowedAppNameRegex_variants_equivalent :
    ∀ l : List Char, matchesAllowedAppNameUtils l = matchesAllowedAppName l := by
  have hc : allowedAppNameCharUtils = allowedAppNameChar := by
    funext c
    by_cases h : c = '_'
    · subst h; rfl
    · simp [allowedAppNameCharUtils, allowedAppNameChar, h]
  intro l
  unfold matchesAllowedAppNameUtils matchesAllowedAppName
  rw [hc]

/-- C1: With the server key, server certificate and CA certificate all
present, `ensureServerCertExists` regenerates the server certificate exactly
when the expiry validity check or the chain verification against the current
CA fails; in particular a server certificate that passes the expiry check but
whose `openssl verify` output against the CA on disk carries no `: OK` mark
(it was signed by a different CA) is regenerated. -/
theorem ensureServerCertExists_two_part_check
    (checkendOk : Bool) (parsedEndDate : Option Int) (now : Int) (verifyOutput : List Char) :
    (ensureServerCertExists true true true checkendOk parsedEndDate now verifyOutput = true ↔
      (checkCertIsValid true checkendOk parsedEndDate now ≠ Except.ok () ∨
       verifyOutputHasOK verifyOutput = false)) ∧
    (checkCertIsValid true checkendOk parsedEndDate now = Except.ok () →
      verifyOutputHasOK verifyOutput = false →
      ensureServerCertExists true true true checkendOk parsedEndDate now verifyOutput = true) := by
  have h : ∀ r, checkCertIsValid true checkendOk parsedEndDate now = r →
      (ensureServerCertExists true true true checkendOk parsedEndDate now verifyOutput = true ↔
        (r ≠ Except.ok () ∨ verifyOutputHasOK verifyOutput = false)) := by
    intro r hr
    unfold ensureServerCertExists
    rw [hr]
    cases r with
    | error e => simp
    | ok u => cases u; cases hv : verifyOutputHasOK verifyOutput <;> simp [hv]
  refine ⟨h _ rfl, fun h1 h2 => ?_⟩
  exact (h _ rfl).mpr (Or.inr h2)

/-- C1 witness: all three files present, the expiry quick check passes, but
the `openssl verify` output shows a failure, so the server certificate is
regenerated. -/
theorem ensureServerCertExists_two_part_check_witness :
    checkCertIsValid true true none 0 = Except.ok () ∧
    verifyOutputHasOK ("server.crt: verification failed".toList) = false ∧
    ensureServerCertExists true true true true none 0
      ("server.crt: verification failed".toList) = true :=
  ⟨rfl, by decide,
   (ensureServerCertExists_two_part_check true none 0
     ("server.crt: verification failed".toList)).2 rfl (by decide)⟩

/-- C3 counterexample: for a certificate whose parsed end date (epoch
1000000000 ms) lies far beyond the guard window at `now = 0`, a quick-check
failure makes the server variant fall back and accept, but the utils variant
(`src/desktop/app/src/utils/CertificateProvider.tsx` lines 511-519, also
cited by the claim) rethrows the quick-check error and never reaches the
end-date parse — the claimed authoritative fallback does not exist there. -/
theorem checkCertIsValidUtils_no_fallback_cex :
    ¬ (1000000000 : Int) ≤ 0 + minCertExpiryWindowSeconds * 1000 ∧
    checkCertIsValid true false (some 1000000000) 0 = Except.ok () ∧
    checkCertIsValidUtils true false (some 1000000000) 0 =
      Except.error CertCheckError.quickCheckFailed ∧
    checkCertIsValidUtils true false (some 1000000000) 0 ≠ Except.ok () := by
  refine ⟨by decide, by decide, by decide, by decide⟩

/-- C3 (amended): both variants of `checkCertIsValid` fail with the not-found
error when the certificate file is absent, and both treat a certificate as
invalid exactly when `t ≤ now + minCertExpiryWindowSeconds * 1000` (given a
conservative quick check); but only the SERVER variant falls back to the
parsed end date on a quick-check failure, accepting a certificate beyond the
guard window — in the UTILS variant a quick-check failure is rethrown and
final, and the end-date parse runs only after a successful quick check, as an
additional test. -/
theorem checkCertIsValid_variants_expiry_semantics
    (fileExists checkendOk : Bool) (parsedEndDate : Option Int) (now : Int) :
    (fileExists = false →
      checkCertIsValid fileExists checkendOk parsedEndDate now =
        Except.error CertCheckError.notFound) ∧
    (∀ t, fileExists = true → parsedEndDate = some t →
      (checkendOk = true → ¬ t ≤ now + minCertExpiryWindowSeconds * 1000) →
      ((checkCertIsValid fileExists checkendOk parsedEndDate now ≠ Except.ok ()) ↔
        t ≤ now + minCertExpiryWindowSeconds * 1000)) ∧
    (∀ t, fileExists = true → checkendOk = false → parsedEndDate = some t →
      ¬ t ≤ now + minCertExpiryWindowSeconds * 1000 →
      checkCertIsValid fileExists checkendOk parsedEndDate now = Except.ok ()) ∧
    (fileExists = false →
      checkCertIsValidUtils fileExists checkendOk parsedEndDate now =
        Except.error CertCheckError.notFound) ∧
    (fileExists = true → checkendOk = false →
      checkCertIsValidUtils fileExists checkendOk parsedEndDate now =
        Except.error CertCheckError.quickCheckFailed) ∧
    (∀ t, fileExists = true → checkendOk = true → parsedEndDate = some t →
      ((checkCertIsValidUtils fileExists checkendOk parsedEndDate now = Except.ok ()) ↔
        ¬ t ≤ now + minCertExpiryWindowSeconds * 1000)) := by
  refine ⟨fun h => ?_, fun t hf hp hcons => ?_, fun t hf hck hp ht => ?_,
    fun h => ?_, fun hf hck => ?_, fun t hf hck hp => ?_⟩
  · subst h; rfl
  · subst hf; subst hp
    cases hck : checkendOk with
    | true =>
      have hgt := hcons hck
      simp only [checkCertIsValid, Bool.not_true, Bool.false_eq_true, if_false, if_true]
      constructor
      · intro hne; exact absurd rfl hne
      · intro hle; exact absurd hle hgt
    | false =>
      by_cases hle : t ≤ now + minCertExpiryWindowSeconds * 1000
      · simp [checkCertIsValid, hle]
      · simp [checkCertIsValid, hle]
  · subst hf; subst hck; subst hp
    simp [checkCertIsValid, ht]
  · subst h; rfl
  · subst hf; subst hck; rfl
  · subst hf; subst hck; subst hp
    by_cases hle : t ≤ now + minCertExpiryWindowSeconds * 1000
    · simp [checkCertIsValidUtils, hle]
    · simp [checkCertIsValidUtils, hle]

/-- C3 amended-claim witness: a missing file fails in both variants; on a
quick-check failure with an end date far beyond the window the server variant
accepts via the fallback while the utils variant rejects with the rethrown
quick-check error; after a successful quick check the utils end-date test
rejects a certificate inside the window. -/
theorem checkCertIsValid_variants_expiry_semantics_witness :
    checkCertIsValid false true (some 1000000000) 0 = Except.error CertCheckError.notFound ∧
    checkCertIsValid true false (some 1000000000) 0 = Except.ok () ∧
    checkCertIsValidUtils false true (some 1000000000) 0 =
      Except.error CertCheckError.notFound ∧
    checkCertIsValidUtils true false (some 1000000000) 0 =
      Except.error CertCheckError.quickCheckFailed ∧
    ((checkCertIsValidUtils true true (some 50000000) 0 = Except.ok ()) ↔
      ¬ (50000000 : Int) ≤ 0 + minCertExpiryWindowSeconds * 1000) :=
  ⟨(checkCertIsValid_variants_expiry_semantics false true (some 1000000000) 0).1 rfl,
   (checkCertIsValid_variants_expiry_semantics true false (some 1000000000) 0).2.2.1
     1000000000 rfl rfl rfl (by decide),
   (checkCertIsValid_variants_expiry_semantics false true (some 1000000000) 0).2.2.2.1 rfl,
   (checkCertIsValid_variants_expiry_semantics true false (some 1000000000) 0).2.2.2.2.1
     rfl rfl,
   (checkCertIsValid_variants_expiry_semantics true true (some 50000000) 0).2.2.2.2.2
     50000000 rfl rfl rfl⟩

/-- C2 counterexample: for the subject dump `subject=CN=` the regex extracts
the Common Name `""`, which (vacuously) consists only of allowed characters,
yet `extractAppNameFromCSR` fails with `DisallowedAppName` instead of
returning it — the allow-list regex `/^[\w.-]+$/` additionally requires the
name to be nonempty. -/
theorem extractAppNameFromCSR_empty_cn_cex :
    cnScan (trimList ("subject=CN=").toList) = some [] ∧
    ([] : List Char).all allowedAppNameChar = true ∧
    extractAppNameFromCSR ("subject=CN=").toList =
      Except.error AppNameError.disallowedAppName ∧
    extractAppNameFromCSR ("subject=CN=").toList ≠ Except.ok [] := by
  refine ⟨by decide, by decide, by decide, by decide⟩

/-- C2 (amended): writing `cn` for the Common Name the code's own regex
extracts from the trimmed subject dump, `extractAppNameFromCSR` returns
exactly `cn` whenever `cn` is NONEMPTY and consists only of allowed characters
(word characters, dots, hyphens; underscores are word characters); it fails
with `MalformedSubject` when no CN is present; and it fails with
`DisallowedAppName` when `cn` contains a disallowed character or is empty. -/
theorem extractAppNameFromCSR_spec (subject : List Char) :
    (cnScan (trimList subject) = none →
      extractAppNameFromCSR subject = Except.error AppNameError.malformedSubject) ∧
    (∀ cn, cnScan (trimList subject) = some cn →
      (cn ≠ [] → cn.all allowedAppNameChar = true →
        extractAppNameFromCSR subject = Except.ok cn) ∧
      (cn.all allowedAppNameChar = false →
        extractAppNameFromCSR subject = Except.error AppNameError.disallowedAppName) ∧
      (cn = [] →
        extractAppNameFromCSR subject = Except.error AppNameError.disallowedAppName)) := by
  constructor
  · intro h
    unfold extractAppNameFromCSR
    rw [h]
  · intro cn h
    refine ⟨fun hne hall => ?_, fun hbad => ?_, fun hnil => ?_⟩
    · unfold extractAppNameFromCSR
      rw [h]
      have hm : matchesAllowedAppName cn = true := by
        cases cn with
        | nil => exact absurd rfl hne
        | cons c t =>
          unfold matchesAllowedAppName
          rw [hall]
          rfl
      simp [hm]
    · unfold extractAppNameFromCSR
      rw [h]
      have hm : matchesAllowedAppName cn = false := by
        unfold matchesAllowedAppName
        rw [hbad]
        exact Bool.and_false _
      simp [hm]
    · subst hnil
      unfold extractAppNameFromCSR
      rw [h]
      rfl

/-- C2 witness: a well-formed RFC2253-style subject with CN `com.example.app`
yields that app name; a CN containing `;` and a space is rejected with
`DisallowedAppName`. -/
theorem extractAppNameFromCSR_spec_witness :
    extractAppNameFromCSR ("subject=CN=com.example.app,O=Sonar".toList) =
      Except.ok ("com.example.app".toList) ∧
    extractAppNameFromCSR ("subject=O=Sonar,CN=evil;rm -rf".toList) =
      Except.error AppNameError.disallowedAppName :=
  ⟨((extractAppNameFromCSR_spec ("subject=CN=com.example.app,O=Sonar".toList)).2
      ("com.example.app".toList) (by decide)).1 (by decide) (by decide),
   ((extractAppNameFromCSR_spec ("subject=O=Sonar,CN=evil;rm -rf".toList)).2
      ("evil;rm -rf".toList) (by decide)).2.1 (by decide)⟩

/-! Helper lemmas about `trimList` / `santitizeList` for C9. -/

lemma dropWhile_append_of_all {p : Char → Bool} {w : List Char} (l : List Char)
    (h : w.all p = true) : (w ++ l).dropWhile p = l.dropWhile p := by
  induction w with
  | nil => rfl
  | cons c t ih =>
    rw [List.all_cons, Bool.and_eq_true] at h
    rw [List.cons_append, List.dropWhile_cons_of_pos h.1]
    exact ih h.2

lemma dropWhile_idem (p : Char → Bool) (l : List Char) :
    (l.dropWhile p).dropWhile p = l.dropWhile p := by
  induction l with
  | nil => rfl
  | cons c t ih =>
    by_cases hc : p c = true
    · rw [List.dropWhile_cons_of_pos hc]
      exact ih
    · rw [List.dropWhile_cons_of_neg hc, List.dropWhile_cons_of_neg hc]

lemma prefix_dropWhile_eq_self {p : Char → Bool} {l l' : List Char}
    (h : l.dropWhile p = l) (hp : l' <+: l) : l'.dropWhile p = l' := by
  cases l' with
  | nil => rfl
  | cons c t =>
    obtain ⟨s, hs⟩ := hp
    have hpc : p c = false := by
      by_contra hne
      have hpc' : p c = true := by
        cases hcc : p c
        · exact absurd hcc hne
        · rfl
      rw [← hs, List.cons_append, List.dropWhile_cons_of_pos hpc'] at h
      have hlen := congrArg List.length h
      have hle : ((t ++ s).dropWhile p).length ≤ (t ++ s).length :=
        (List.dropWhile_sublist p).length_le
      simp only [List.length_cons] at hlen
      omega
    rw [List.dropWhile_cons_of_neg (by rw [hpc]; exact Bool.false_ne_true)]

lemma dropTrailing_append_of_all {p : Char → Bool} {w : List Char} (l : List Char)
    (h : w.all p = true) : dropTrailing p (l ++ w) = dropTrailing p l := by
  unfold dropTrailing
  rw [List.reverse_append, dropWhile_append_of_all _ (by rw [List.all_reverse]; exact h)]

lemma prefix_dropTrailing (p : Char → Bool) (l : List Char) : dropTrailing p l <+: l := by
  unfold dropTrailing
  have h1 : l.reverse.dropWhile p <:+ l.reverse := List.dropWhile_suffix p
  have h2 := List.reverse_prefix.mpr h1
  rwa [List.reverse_reverse] at h2

lemma dropTrailing_idem (p : Char → Bool) (l : List Char) :
    dropTrailing p (dropTrailing p l) = dropTrailing p l := by
  unfold dropTrailing
  rw [List.reverse_reverse, dropWhile_idem]

lemma trimList_ws_append {w : List Char} (x : List Char)
    (h : w.all jsWhitespaceChar = true) : trimList (w ++ x) = trimList x := by
  unfold trimList
  rw [dropWhile_append_of_all _ h]

lemma trimList_append_ws (x : List Char) {w : List Char}
    (h : w.all jsWhitespaceChar = true) : trimList (x ++ w) = trimList x := by
  induction x with
  | nil =>
    unfold trimList
    rw [List.nil_append]
    have hdw : w.dropWhile jsWhitespaceChar = [] := by
      induction w with
      | nil => rfl
      | cons c t ih =>
        rw [List.all_cons, Bool.and_eq_true] at h
        rw [List.dropWhile_cons_of_pos h.1]
        exact ih h.2
    rw [hdw]
    rfl
  | cons c t ih =>
    by_cases hc : jsWhitespaceChar c = true
    · unfold trimList
      rw [List.cons_append, List.dropWhile_cons_of_pos hc, List.dropWhile_cons_of_pos hc]
      exact ih
    · unfold trimList
      rw [List.cons_append, List.dropWhile_cons_of_neg hc, List.dropWhile_cons_of_neg hc]
      rw [← List.cons_append]
      exact dropTrailing_append_of_all (c :: t) h

lemma trimList_idem (l : List Char) : trimList (trimList l) = trimList l := by
  have h1 : (trimList l).dropWhile jsWhitespaceChar = trimList l :=
    prefix_dropWhile_eq_self (dropWhile_idem jsWhitespaceChar l)
      (prefix_dropTrailing jsWhitespaceChar (l.dropWhile jsWhitespaceChar))
  show dropTrailing jsWhitespaceChar ((trimList l).dropWhile jsWhitespaceChar) = trimList l
  rw [h1]
  show dropTrailing jsWhitespaceChar
    (dropTrailing jsWhitespaceChar (l.dropWhile jsWhitespaceChar)) = trimList l
  rw [dropTrailing_idem]
  rfl

lemma trimList_sublist (l : List Char) : List.Sublist (trimList l) l := by
  have h1 : List.Sublist (l.dropWhile jsWhitespaceChar) l := List.dropWhile_sublist _
  have h2 : List.Sublist (trimList l) (l.dropWhile jsWhitespaceChar) :=
    (prefix_dropTrailing _ _).sublist
  exact h2.trans h1

lemma santitizeList_no_cr (l : List Char) :
    (santitizeList l).filter (fun c => c != '\r') = santitizeList l := by
  apply List.filter_eq_self.mpr
  intro a ha
  have hmem : a ∈ l.filter (fun c => c != '\r') :=
    (trimList_sublist _).subset ha
  exact (List.mem_filter.mp hmem).2

/-- C9: sanitization (`replace(/\r/g, '').trim()`) is idempotent, invariant
under added leading/trailing whitespace, and invariant under embedded
carriage returns. -/
theorem santitizeString_idempotent_invariant :
    (∀ x : List Char, santitizeList (santitizeList x) = santitizeList x) ∧
    (∀ x w1 w2 : List Char, w1.all jsWhitespaceChar = true →
      w2.all jsWhitespaceChar = true →
      santitizeList (w1 ++ x ++ w2) = santitizeList x) ∧
    (∀ a b : List Char, santitizeList (a ++ '\r' :: b) = santitizeList (a ++ b)) := by
  refine ⟨fun x => ?_, fun x w1 w2 h1 h2 => ?_, fun a b => ?_⟩
  · show trimList ((santitizeList x).filter (fun c => c != '\r')) = santitizeList x
    rw [santitizeList_no_cr]
    exact trimList_idem _
  · show trimList ((w1 ++ x ++ w2).filter (fun c => c != '\r')) = santitizeList x
    rw [List.filter_append, List.filter_append]
    have hw1 : (w1.filter (fun c => c != '\r')).all jsWhitespaceChar = true := by
      rw [List.all_eq_true]
      intro c hc
      exact (List.all_eq_true.mp h1) c (List.mem_filter.mp hc).1
    have hw2 : (w2.filter (fun c => c != '\r')).all jsWhitespaceChar = true := by
      rw [List.all_eq_true]
      intro c hc
      exact (List.all_eq_true.mp h2) c (List.mem_filter.mp hc).1
    rw [trimList_append_ws _ hw2, trimList_ws_append _ hw1]
    rfl
  · show trimList ((a ++ '\r' :: b).filter (fun c => c != '\r'))
        = trimList ((a ++ b).filter (fun c => c != '\r'))
    rw [List.filter_append, List.filter_append, List.filter_cons]
    simp only [bne_self_eq_false, Bool.false_eq_true, if_false]

/-- C9 witness: a concrete instance of the whitespace/carriage-return
invariance. -/
theorem santitizeString_idempotent_invariant_witness :
    santitizeList (" \t".toList ++ "com.app".toList ++ "\r\n".toList)
      = santitizeList ("com.app".toList) :=
  santitizeString_idempotent_invariant.2.1 ("com.app".toList) (" \t".toList)
    ("\r\n".toList) (by decide) (by decide)

/-! Helper lemmas about the Android device resolver for C4 / C5. -/

lemma androidOutcome_fst (d : String × Except String (Bool × String)) :
    (androidOutcome d).1 = d.1 := by
  obtain ⟨id, o⟩ := d
  cases o <;> rfl

lemma android_filter_map (devices : List (String × Except String (Bool × String))) :
    (devices.map androidOutcome).filter (fun o => o.2.1)
      = (devices.filter androidMatchOutcome).map androidOutcome := by
  induction devices with
  | nil => rfl
  | cons d t ih =>
    obtain ⟨id, o⟩ := d
    cases o with
    | ok r =>
      obtain ⟨b, s⟩ := r
      cases b <;>
        simp [androidOutcome, androidMatchOutcome, List.filter_cons, ih]
    | error e =>
      simp [androidOutcome, androidMatchOutcome, List.filter_cons, ih]

lemma android_find_map (devices : List (String × Except String (Bool × String))) :
    (devices.map androidOutcome).find? (fun o => o.2.2.isSome)
      = (devices.find? androidErredOutcome).map androidOutcome := by
  induction devices with
  | nil => rfl
  | cons d t ih =>
    obtain ⟨id, o⟩ := d
    cases o with
    | ok r =>
      obtain ⟨b, s⟩ := r
      simp [androidOutcome, androidErredOutcome, List.find?_cons, ih]
    | error e =>
      simp [androidOutcome, androidErredOutcome, List.find?_cons]

/-- Closed-form description of `getTargetAndroidDeviceId` in terms of the
match / error structure of the device pool. -/
lemma getTargetAndroidDeviceId_characterization
    (devices : List (String × Except String (Bool × String))) :
    getTargetAndroidDeviceId devices =
      if devices.length = 0 then Except.error DeviceResolutionError.noAndroidDevicesFound
      else
        match (devices.filter androidMatchOutcome).map (fun d => d.1) with
        | [] =>
          match devices.find? androidErredOutcome with
          | some d => Except.error (DeviceResolutionError.pullError (androidErrMsg d))
          | none => Except.error DeviceResolutionError.noMatchingDevice
        | id :: _ => Except.ok id := by
  by_cases hlen : devices.length = 0
  · simp [getTargetAndroidDeviceId, hlen]
  · simp only [getTargetAndroidDeviceId, hlen, if_false]
    rw [android_filter_map devices, List.map_map]
    simp only [Function.comp_def]
    have hmc : (devices.filter androidMatchOutcome).map (fun d => (androidOutcome d).1)
        = (devices.filter androidMatchOutcome).map (fun d => d.1) :=
      List.map_congr_left (fun d _ => androidOutcome_fst d)
    rw [hmc]
    rw [android_find_map devices]
    cases hf : devices.find? androidErredOutcome with
    | none => rfl
    | some d =>
      have hp : androidErredOutcome d = true := List.find?_some hf
      obtain ⟨id, o⟩ := d
      cases o with
      | ok r => simp [androidErredOutcome] at hp
      | error e => simp [androidOutcome, androidErrMsg]

/-- Whenever some device's pulled-back CSR matches, `getTargetAndroidDeviceId`
returns the first matching id (errors on other devices cannot hide it). -/
lemma android_first_match (devices : List (String × Except String (Bool × String)))
    (d : String × Except String (Bool × String)) (rest : List (String × Except String (Bool × String)))
    (hfil : devices.filter androidMatchOutcome = d :: rest) :
    getTargetAndroidDeviceId devices = Except.ok d.1 := by
  have hne : devices ≠ [] := by
    intro hnil
    subst hnil
    simp at hfil
  rw [getTargetAndroidDeviceId_characterization, if_neg (by
    intro h0
    exact hne (List.length_eq_zero.mp h0)), hfil]
  simp

lemma ios_promiseAll_error (targets : List (String × Except String Bool))
    (h : ∃ t, t ∈ targets ∧ iosErredOutcome t = true) :
    ∃ e, promiseAllExcept iosOutcome targets = Except.error e := by
  induction targets with
  | nil =>
    obtain ⟨t, ht, _⟩ := h
    exact absurd ht (List.not_mem_nil t)
  | cons t ts ih =>
    obtain ⟨u, hu, herr⟩ := h
    obtain ⟨id, o⟩ := t
    cases o with
    | error e =>
      refine ⟨e, ?_⟩
      simp [promiseAllExcept, iosOutcome]
    | ok b =>
      rcases List.mem_cons.mp hu with hut | hus
      · subst hut
        simp [iosErredOutcome] at herr
      · obtain ⟨e, he⟩ := ih ⟨u, hus, herr⟩
        refine ⟨e, ?_⟩
        simp [promiseAllExcept, iosOutcome, he]

/-- C4: the device-resolution decision policy: an empty pool fails with the
no-devices error (on both the Android and the iOS path); with exactly one
matching device that device's id is returned; with zero matches the first
pull error is rethrown when one was caught, otherwise the no-matching-device
error is raised; with several matches the first matching id is returned
without failing. -/
theorem deviceResolution_policy
    (devices : List (String × Except String (Bool × String))) :
    (devices = [] →
      getTargetAndroidDeviceId devices =
        Except.error DeviceResolutionError.noAndroidDevicesFound) ∧
    (∀ d, devices.filter androidMatchOutcome = [d] →
      getTargetAndroidDeviceId devices = Except.ok d.1) ∧
    (devices.filter androidMatchOutcome = [] →
      (∀ d e, devices.find? androidErredOutcome = some d → d.2 = Except.error e →
        getTargetAndroidDeviceId devices =
          Except.error (DeviceResolutionError.pullError e)) ∧
      (devices ≠ [] → devices.find? androidErredOutcome = none →
        getTargetAndroidDeviceId devices =
          Except.error DeviceResolutionError.noMatchingDevice)) ∧
    (∀ d rest, devices.filter androidMatchOutcome = d :: rest →
      getTargetAndroidDeviceId devices = Except.ok d.1) ∧
    (∀ (path : String) (targets : List (String × Except String Bool)),
      simulatorDeviceId path.toList = none → targets = [] →
      getTargetiOSDeviceId path targets =
        Except.error DeviceResolutionError.noIOSDevicesFound) := by
  refine ⟨fun h => ?_, fun d hfil => ?_, fun hfil => ⟨fun d e hfind hde => ?_, fun hne hfind => ?_⟩,
    fun d rest hfil => ?_, fun path targets hsim htgt => ?_⟩
  · subst h; rfl
  · exact android_first_match devices d [] hfil
  · have hne : devices ≠ [] := by
      intro h0
      subst h0
      simp at hfind
    rw [getTargetAndroidDeviceId_characterization, if_neg (by
      intro h0
      exact hne (List.length_eq_zero.mp h0)), hfil, hfind]
    simp [androidErrMsg, hde]
  · rw [getTargetAndroidDeviceId_characterization, if_neg (by
      intro h0
      exact hne (List.length_eq_zero.mp h0)), hfil, hfind]
    rfl
  · exact android_first_match devices d rest hfil
  · subst htgt
    simp only [getTargetiOSDeviceId]
    rw [hsim]
    rfl

/-- C4 witness: a pool with one caught pull error and one matching device
resolves to the matching device's id; a pool with a caught pull error and no
match rethrows that error; the empty pools fail with the no-devices errors. -/
theorem deviceResolution_policy_witness :
    getTargetAndroidDeviceId
      [("emu-1", Except.error "closed"), ("emu-2", Except.ok (true, "CSR"))]
      = Except.ok "emu-2" ∧
    getTargetAndroidDeviceId
      [("emu-1", Except.error "closed"), ("emu-2", Except.ok (false, "OTHER"))]
      = Except.error (DeviceResolutionError.pullError "closed") ∧
    getTargetAndroidDeviceId [] =
      Except.error DeviceResolutionError.noAndroidDevicesFound ∧
    getTargetiOSDeviceId "/data/app" [] =
      Except.error DeviceResolutionError.noIOSDevicesFound :=
  ⟨(deviceResolution_policy
      [("emu-1", Except.error "closed"), ("emu-2", Except.ok (true, "CSR"))]).2.1
      ("emu-2", Except.ok (true, "CSR")) (by decide),
   ((deviceResolution_policy
      [("emu-1", Except.error "closed"), ("emu-2", Except.ok (false, "OTHER"))]).2.2.1
      (by decide)).1 ("emu-1", Except.error "closed") "closed" (by decide) rfl,
   (deviceResolution_policy []).1 rfl,
   (deviceResolution_policy []).2.2.2.2 "/data/app" [] (by decide) rfl⟩

/-- C5 counterexample: on the iOS resolution path a single device's pull
error rejects the whole resolution even though another enumerated device's
CSR matches — the claim that on both paths one device's error never aborts
the batch or hides another device's successful match is false. -/
theorem iosResolution_error_hides_match_cex :
    getTargetiOSDeviceId "/private/var/app"
      [("udid-1", Except.error "pull failed"), ("udid-2", Except.ok true)]
      = Except.error (DeviceResolutionError.pullError "pull failed") ∧
    getTargetiOSDeviceId "/private/var/app"
      [("udid-1", Except.error "pull failed"), ("udid-2", Except.ok true)]
      ≠ Except.ok "udid-2" := by
  exact ⟨by decide, by decide⟩

/-- C5 (amended): on the Android path per-device outcomes are captured
individually and an error never hides a match — whenever some device
matches, the first matching id is returned regardless of other devices'
errors; on the iOS path, by contrast, any single device's check error makes
the whole resolution fail (`Promise.all` without a per-device catch), even if
another device matches. -/
theorem deviceResolution_error_isolation :
    (∀ devices (d : String × Except String (Bool × String)) rest,
      devices.filter androidMatchOutcome = d :: rest →
      getTargetAndroidDeviceId devices = Except.ok d.1) ∧
    (∀ (path : String) (targets : List (String × Except String Bool)),
      simulatorDeviceId path.toList = none →
      (∃ t, t ∈ targets ∧ iosErredOutcome t = true) →
      ∃ e, getTargetiOSDeviceId path targets =
        Except.error (DeviceResolutionError.pullError e)) := by
  constructor
  · intro devices d rest hfil
    exact android_first_match devices d rest hfil
  · intro path targets hsim hex
    obtain ⟨e, he⟩ := ios_promiseAll_error targets hex
    have hne : targets ≠ [] := by
      intro h0
      subst h0
      obtain ⟨t, ht, _⟩ := hex
      exact absurd ht (List.not_mem_nil t)
    refine ⟨e, ?_⟩
    simp only [getTargetiOSDeviceId, hsim]
    rw [if_neg (by
      intro h0
      exact hne (List.length_eq_zero.mp h0)), he]

/-- C5 amended-claim witness: concrete instances of both halves. -/
theorem deviceResolution_error_isolation_witness :
    getTargetAndroidDeviceId
      [("emu-1", Except.error "closed"), ("emu-2", Except.ok (true, "CSR"))]
      = Except.ok "emu-2" ∧
    (∃ e, getTargetiOSDeviceId "/private/var/app"
      [("udid-1", Except.error "pull failed"), ("udid-2", Except.ok true)]
      = Except.error (DeviceResolutionError.pullError e)) :=
  ⟨deviceResolution_error_isolation.1
      [("emu-1", Except.error "closed"), ("emu-2", Except.ok (true, "CSR"))]
      ("emu-2", Except.ok (true, "CSR")) [] (by decide),
   deviceResolution_error_isolation.2 "/private/var/app"
      [("udid-1", Except.error "pull failed"), ("udid-2", Except.ok true)]
      (by decide)
      ⟨("udid-1", Except.error "pull failed"), by decide, rfl⟩⟩

/-- C8: whenever the raw CSR sanitizes to the empty string,
`processCertificateSigningRequest` rejects with the empty-request error and
performs no effect at all: no certificate is generated or delivered, no file
is staged, and no device is touched (empty event trace, empty staging). -/
theorem processCSR_empty_csr_rejected (env : Env)
    (unsanitizedCsr osk appDirectory : String) (medium : Medium) :
    santitizeString unsanitizedCsr = "" →
    processCertificateSigningRequest env unsanitizedCsr osk appDirectory medium =
      (Except.error (ExError.emptyRequest osk), { events := [], staged := [] }) := by
  intro h
  simp [processCertificateSigningRequest, h]

/-- C8 witness: whitespace and carriage returns only. -/
theorem processCSR_empty_csr_rejected_witness :
    processCertificateSigningRequest sampleEnv " \r\r\t " "Android" "/x/" Medium.fsAccess =
      (Except.error (ExError.emptyRequest "Android"), { events := [], staged := [] }) :=
  processCSR_empty_csr_rejected sampleEnv " \r\r\t " "Android" "/x/" Medium.fsAccess (by decide)

/-- C7: on the `WWW` medium, once both certificate artifacts have been staged
and zipped, the archive is uploaded under the hard 5-minute timeout
(`5 * 60 * 1000` ms); an upload failure makes the exchange fail with the
upload error, but the staged artifacts are exactly the two delivered
certificate files, untouched — nothing staged before the upload step is
removed or rolled back. -/
theorem processCSR_upload_failure_no_rollback
    (csr osk dir ca subj cc uuid err : String) (app : List Char)
    (ads : List (String × Except String (Bool × String)))
    (iost : List (String × Except String Bool))
    (apr ipr : Except String Unit) (dwo : Bool) :
    santitizeString csr ≠ "" →
    extractAppNameFromCSR subj.toList = Except.ok app →
    (let env : Env := ⟨Except.ok (), Except.ok ca, Except.ok subj, Except.ok cc,
        ads, iost, true, dwo, apr, ipr, uuid, Except.ok (), Except.error err⟩
     let r := processCertificateSigningRequest env csr osk dir Medium.www
     r.1 = Except.error (ExError.uploadFailed err) ∧
     r.2.staged = [(deviceCAcertFile, ca), (deviceClientCertFile, cc)] ∧
     ExEvent.uploadArchive uploadTimeoutMilliseconds ∈ r.2.events ∧
     uploadTimeoutMilliseconds = 300000) := by
  intro hcsr hex
  have hex2 : extractAppNameFromCSR subj.data = Except.ok app := hex
  refine ⟨?_, ?_, ?_, rfl⟩ <;>
    simp [processCertificateSigningRequest, deployOrStageFileForMobileApp, hcsr, hex, hex2]

/-- C7 witness: a concrete upload timeout after both artifacts were staged. -/
theorem processCSR_upload_failure_no_rollback_witness :
    (processCertificateSigningRequest
        ⟨Except.ok (), Except.ok "CA-PEM", Except.ok "subject=CN=com.example.app",
         Except.ok "CLIENT-PEM", [], [], true, true, Except.ok (), Except.ok (),
         "uuid-1", Except.ok (), Except.error "Timed out uploading Flipper certificates to WWW."⟩
        "FAKE-CSR" "Android" "/x/" Medium.www).1
      = Except.error (ExError.uploadFailed "Timed out uploading Flipper certificates to WWW.") ∧
    (processCertificateSigningRequest
        ⟨Except.ok (), Except.ok "CA-PEM", Except.ok "subject=CN=com.example.app",
         Except.ok "CLIENT-PEM", [], [], true, true, Except.ok (), Except.ok (),
         "uuid-1", Except.ok (), Except.error "Timed out uploading Flipper certificates to WWW."⟩
        "FAKE-CSR" "Android" "/x/" Medium.www).2.staged
      = [(deviceCAcertFile, "CA-PEM"), (deviceClientCertFile, "CLIENT-PEM")] :=
  ⟨(processCSR_upload_failure_no_rollback "FAKE-CSR" "Android" "/x/" "CA-PEM"
      "subject=CN=com.example.app" "CLIENT-PEM" "uuid-1"
      "Timed out uploading Flipper certificates to WWW." ("com.example.app".toList)
      [] [] (Except.ok ()) (Except.ok ()) true (by decide) (by decide)).1,
   (processCSR_upload_failure_no_rollback "FAKE-CSR" "Android" "/x/" "CA-PEM"
      "subject=CN=com.example.app" "CLIENT-PEM" "uuid-1"
      "Timed out uploading Flipper certificates to WWW." ("com.example.app".toList)
      [] [] (Except.ok ()) (Except.ok ()) true (by decide) (by decide)).2.1⟩

/-- C6 counterexample: for an unrecognized OS under the `NONE` medium the
exchange does not return an empty or `'unknown'` placeholder device id — it
fails with the unsupported-OS error already during certificate delivery. -/
theorem processCSR_noMedium_unrecognized_os_cex :
    (processCertificateSigningRequest sampleEnv "FAKE-CSR" "FooOS" "/x/" Medium.noMedium).1
      = Except.error (ExError.unsupportedOS "FooOS") ∧
    (processCertificateSigningRequest sampleEnv "FAKE-CSR" "FooOS" "/x/" Medium.noMedium).1
      ≠ Except.ok "" ∧
    (processCertificateSigningRequest sampleEnv "FAKE-CSR" "FooOS" "/x/" Medium.noMedium).1
      ≠ Except.ok "unknown" :=
  ⟨rfl, by decide, by decide⟩

/-- C6 (amended): the returned device id is resolved by medium: under
`FS_ACCESS` with a bridge OS the id of the connected device whose pulled-back
CSR matches is returned (via `getTargetAndroidDeviceId`); under `WWW` a fresh
opaque identifier (`uuid()`) is returned and no device enumeration is
performed; for an OS outside the deliverable set the exchange fails with the
unsupported-OS error during delivery (for every non-`WWW` medium), never
reaching the `''`/`'unknown'` placeholders of `getTargetDeviceId`; and under
the `NONE` medium with a deliverable OS a fresh identifier is synthesized
exactly as for `WWW`. -/
theorem processCSR_device_id_by_medium :
    (∀ (csr osk dir ca subj cc uuid : String) (app : List Char)
       (ads : List (String × Except String (Bool × String)))
       (iost : List (String × Except String Bool))
       (apr ipr : Except String Unit) (dwo : Bool),
      santitizeString csr ≠ "" →
      extractAppNameFromCSR subj.toList = Except.ok app →
      (let r := processCertificateSigningRequest
          ⟨Except.ok (), Except.ok ca, Except.ok subj, Except.ok cc, ads, iost, true, dwo,
           apr, ipr, uuid, Except.ok (), Except.ok ()⟩ csr osk dir Medium.www
       r.1 = Except.ok uuid ∧
       ExEvent.androidEnumerate ∉ r.2.events ∧
       ExEvent.iosEnumerate ∉ r.2.events ∧
       ExEvent.resolveTargetDevice ∉ r.2.events)) ∧
    (∀ (csr dir ca subj cc uuid devId : String) (app : List Char)
       (ads : List (String × Except String (Bool × String)))
       (iost : List (String × Except String Bool))
       (ipr : Except String Unit) (swo dwo : Bool) (zr ur : Except String Unit),
      santitizeString csr ≠ "" →
      extractAppNameFromCSR subj.toList = Except.ok app →
      getTargetAndroidDeviceId ads = Except.ok devId →
      (processCertificateSigningRequest
          ⟨Except.ok (), Except.ok ca, Except.ok subj, Except.ok cc, ads, iost, swo, dwo,
           Except.ok (), ipr, uuid, zr, ur⟩ csr "Android" dir Medium.fsAccess).1
        = Except.ok devId) ∧
    (∀ (csr osk dir ca subj cc uuid : String) (app : List Char)
       (ads : List (String × Except String (Bool × String)))
       (iost : List (String × Except String Bool))
       (apr ipr : Except String Unit) (swo dwo : Bool) (zr ur : Except String Unit)
       (medium : Medium),
      santitizeString csr ≠ "" →
      extractAppNameFromCSR subj.toList = Except.ok app →
      osk ≠ "Android" → osk ≠ "iOS" → osk ≠ "windows" → osk ≠ "MacOS" →
      medium ≠ Medium.www →
      (processCertificateSigningRequest
          ⟨Except.ok (), Except.ok ca, Except.ok subj, Except.ok cc, ads, iost, swo, dwo,
           apr, ipr, uuid, zr, ur⟩ csr osk dir medium).1
        = Except.error (ExError.unsupportedOS osk)) ∧
    (∀ (csr dir ca subj cc uuid : String) (app : List Char)
       (ads : List (String × Except String (Bool × String)))
       (iost : List (String × Except String Bool))
       (apr ipr : Except String Unit) (swo : Bool) (zr ur : Except String Unit),
      santitizeString csr ≠ "" →
      extractAppNameFromCSR subj.toList = Except.ok app →
      (processCertificateSigningRequest
          ⟨Except.ok (), Except.ok ca, Except.ok subj, Except.ok cc, ads, iost, swo, true,
           apr, ipr, uuid, zr, ur⟩ csr "MacOS" dir Medium.noMedium).1
        = Except.ok uuid) := by
  refine ⟨fun csr osk dir ca subj cc uuid app ads iost apr ipr dwo hcsr hex => ?_,
    fun csr dir ca subj cc uuid devId app ads iost ipr swo dwo zr ur hcsr hex hres => ?_,
    fun csr osk dir ca subj cc uuid app ads iost apr ipr swo dwo zr ur medium
      hcsr hex h1 h2 h3 h4 hmed => ?_,
    fun csr dir ca subj cc uuid app ads iost apr ipr swo zr ur hcsr hex => ?_⟩
  · have hex2 : extractAppNameFromCSR subj.data = Except.ok app := hex
    refine ⟨?_, ?_, ?_, ?_⟩ <;>
      simp [processCertificateSigningRequest, deployOrStageFileForMobileApp, hcsr, hex, hex2]
  · have hex2 : extractAppNameFromCSR subj.data = Except.ok app := hex
    simp [processCertificateSigningRequest, deployOrStageFileForMobileApp,
      getTargetDeviceId, hcsr, hex, hex2, hres]
  · have hex2 : extractAppNameFromCSR subj.data = Except.ok app := hex
    cases medium with
    | www => exact absurd rfl hmed
    | fsAccess =>
      simp [processCertificateSigningRequest, deployOrStageFileForMobileApp,
        hcsr, hex, hex2, h1, h2, h3, h4]
    | noMedium =>
      simp [processCertificateSigningRequest, deployOrStageFileForMobileApp,
        hcsr, hex, hex2, h1, h2, h3, h4]
  · have hex2 : extractAppNameFromCSR subj.data = Except.ok app := hex
    simp [processCertificateSigningRequest, deployOrStageFileForMobileApp, hcsr, hex, hex2]

/-- C6 amended-claim witness: concrete instances of all four clauses. -/
theorem processCSR_device_id_by_medium_witness :
    (processCertificateSigningRequest sampleEnv "FAKE-CSR" "FooOS" "/x/" Medium.www).1
      = Except.ok "3b241101-e2bb-4255-8caf-4136c566a962" ∧
    (processCertificateSigningRequest sampleEnv "FAKE-CSR" "Android" "/x/" Medium.fsAccess).1
      = Except.ok "emu-5554" ∧
    (processCertificateSigningRequest sampleEnv "FAKE-CSR" "FooOS" "/x/" Medium.fsAccess).1
      = Except.error (ExError.unsupportedOS "FooOS") ∧
    (processCertificateSigningRequest sampleEnv "FAKE-CSR" "MacOS" "/x/" Medium.noMedium).1
      = Except.ok "3b241101-e2bb-4255-8caf-4136c566a962" :=
  ⟨(processCSR_device_id_by_medium.1 "FAKE-CSR" "FooOS" "/x/" "CA-PEM"
      "subject=CN=com.example.app" "CLIENT-PEM" "3b241101-e2bb-4255-8caf-4136c566a962"
      ("com.example.app".toList) [("emu-5554", Except.ok (true, "CSR"))] []
      (Except.ok ()) (Except.ok ()) true (by decide) (by decide)).1,
   processCSR_device_id_by_medium.2.1 "FAKE-CSR" "/x/" "CA-PEM"
      "subject=CN=com.example.app" "CLIENT-PEM" "3b241101-e2bb-4255-8caf-4136c566a962"
      "emu-5554" ("com.example.app".toList) [("emu-5554", Except.ok (true, "CSR"))] []
      (Except.ok ()) true true (Except.ok ()) (Except.ok ())
      (by decide) (by decide) (by decide),
   processCSR_device_id_by_medium.2.2.1 "FAKE-CSR" "FooOS" "/x/" "CA-PEM"
      "subject=CN=com.example.app" "CLIENT-PEM" "3b241101-e2bb-4255-8caf-4136c566a962"
      ("com.example.app".toList) [("emu-5554", Except.ok (true, "CSR"))] []
      (Except.ok ()) (Except.ok ()) true true (Except.ok ()) (Except.ok ())
      Medium.fsAccess (by decide) (by decide) (by decide) (by decide) (by decide)
      (by decide) (by decide),
   processCSR_device_id_by_medium.2.2.2 "FAKE-CSR" "/x/" "CA-PEM"
      "subject=CN=com.example.app" "CLIENT-PEM" "3b241101-e2bb-4255-8caf-4136c566a962"
      ("com.example.app".toList) [("emu-5554", Except.ok (true, "CSR"))] []
      (Except.ok ()) (Except.ok ()) true (Except.ok ()) (Except.ok ())
      (by decide) (by decide)⟩

end Flipper
